import Mathlib

/-!
Shallow embedding of the waste-transport order core (backend/app):
the order status state machine (`api/v1/endpoints/orders.py`), the
property-scope resolution (`crud/crud_order.py`, duplicated inline in the
order endpoints), the property-manager membership operations
(`crud/crud_property_manager.py`, `api/v1/endpoints/property_managers.py`)
and order creation (`crud_order.create_with_customer`).

Modelling conventions:
* Database rows are Lean structures; the session is a `DB` record of row
  lists.  SQLAlchemy integer ids are `Nat`, nullable columns are `Option`.
* `datetime` values are abstract instants modelled as `Nat`; the single
  `utcnow()` read of a request is the explicit `now` parameter.
  Float columns (`waste_volume`, `waste_weight`) are abstracted to `Nat`;
  no claim depends on their arithmetic.
* Python truthiness on `Optional[int]` columns (`if x:`) is `truthyId`
  below (`None` and `0` are falsy); on non-nullable int columns it is
  `x ≠ 0`.
* A raised exception aborts the request before any later mutation; an
  operation returns `Res`, where `.err db e` carries the (unchanged so
  far) database at the moment of the raise.  A Python `AttributeError`
  (access to a field that does not exist on a Pydantic schema object or
  an enum member that is not declared) is the `.attributeError` outcome:
  the source contains several such accesses (`OrderStatusUpdate` has no
  `driver_assoc_id` / `vehicle_id` / `transport_company_id` /
  `recycling_company_id` field, `PropertyManagerCreate` has no
  `property_company_id` field, and `DriverStatus.ON_TASK` /
  `VehicleStatus.ON_TASK` are not members of those enums).
* The `Community` rows carry `property_company_id`: every query of the
  scope resolver (`crud_order.py:45`, `orders.py:217,316,493`) and the
  community endpoints filter `Community.property_company_id`, and
  `PropertyCompany.communities` declares the matching relationship;
  `models/community.py` still carries the pre-refactor `property_id`
  column, a model-layer leftover that would only surface as a global ORM
  mapper-configuration failure, so the embedding adopts the relational
  schema that the verified operation code queries.
* Python `set` accumulation is modelled by a list whose membership is the
  set membership; claims about sets are stated via `∈`.
-/

/-- Enumeration `OrderStatus` from `models/order.py`. -/
inductive OrderStatus where
  | pending
  | propertyConfirmed
  | transportAssigned
  | transporting
  | delivered
  | recyclingConfirmed
  | completed
  | cancelled
deriving DecidableEq, Repr

/-- Enumeration `UserRole` from `models/user.py`. -/
inductive UserRole where
  | customer
  | property
  | transport
  | recycling
  | admin
deriving DecidableEq, Repr

/-- Enumeration `TransportRole` from `models/transport_manager.py`. -/
inductive TransportRole where
  | dispatcher
  | driver
deriving DecidableEq, Repr

/-- Enumeration `DriverStatus` from `models/transport_manager.py`.
Note there is no `ON_TASK` member; `orders.py` nevertheless references
`DriverStatus.ON_TASK`, which is an `AttributeError` at run time. -/
inductive DriverStatus where
  | available
  | busy
  | offDuty
  | inactive
deriving DecidableEq, Repr

/-- Enumeration `VehicleStatus` from `models/vehicle.py`.
Note there is no `ON_TASK` member; `orders.py` nevertheless references
`VehicleStatus.ON_TASK`, which is an `AttributeError` at run time. -/
inductive VehicleStatus where
  | available
  | inUse
  | maintenance
  | inactive
deriving DecidableEq, Repr

/-- Actor resolved from the bearer token (`models/user.py`). -/
structure User where
  id : Nat
  role : UserRole
  is_superuser : Bool
deriving DecidableEq, Repr

/-- Row of `address` (`models/address.py`); `community_id` is a
non-nullable foreign key. -/
structure Address where
  id : Nat
  user_id : Nat
  community_id : Nat
deriving DecidableEq, Repr

/-- Row of `community`; carries the property-company foreign key that the
scope-resolution queries filter on (see the header note). -/
structure Community where
  id : Nat
  property_company_id : Nat
deriving DecidableEq, Repr

/-- Row of `property_manager` (`models/property_manager.py`). -/
structure PropertyManager where
  id : Nat
  property_company_id : Nat
  manager_id : Nat
  role : String
  is_primary : Bool
  community_id : Option Nat
deriving DecidableEq, Repr

/-- Row of `transport_manager` (`models/transport_manager.py`). -/
structure TransportManager where
  id : Nat
  transport_company_id : Nat
  manager_id : Nat
  is_primary : Bool
  role : Option TransportRole
  driver_status : Option DriverStatus
deriving DecidableEq, Repr

/-- Row of `recycling_manager` (`models/recycling_manager.py`). -/
structure RecyclingManager where
  id : Nat
  recycling_company_id : Nat
  manager_id : Nat
  is_primary : Bool
deriving DecidableEq, Repr

/-- Row of `vehicle` (`models/vehicle.py`). -/
structure Vehicle where
  id : Nat
  transport_company_id : Nat
  status : VehicleStatus
deriving DecidableEq, Repr

/-- Row of `order` (`models/order.py`); billing and audit columns
(`price`, `payment_status`, `created_at`, `updated_at`) are not read by
any modelled operation and are omitted. -/
structure Order where
  id : Nat
  order_number : String
  customer_id : Nat
  address_id : Nat
  waste_type : String
  waste_volume : Nat
  waste_weight : Option Nat
  expected_pickup_time : Option Nat
  actual_pickup_time : Option Nat
  delivery_time : Option Nat
  notes : Option String
  property_manager_id : Option Nat
  property_confirm_time : Option Nat
  property_notes : Option String
  transport_company_id : Option Nat
  transport_manager_id : Option Nat
  driver_assoc_id : Option Nat
  vehicle_id : Option Nat
  transport_route : Option String
  recycling_manager_id : Option Nat
  recycling_company_id : Option Nat
  recycling_confirm_time : Option Nat
  recycling_notes : Option String
  status : OrderStatus
deriving DecidableEq, Repr

/-- Database session state: one list of rows per mapped table. -/
structure DB where
  addresses : List Address
  communities : List Community
  propertyManagers : List PropertyManager
  transportManagers : List TransportManager
  recyclingManagers : List RecyclingManager
  vehicles : List Vehicle
  orders : List Order
deriving DecidableEq, Repr

/-- Typed request errors: `HTTPException` status classes raised by the
endpoints, plus `attributeError` for Python `AttributeError` crashes
(surfaced as a 500 by the framework). -/
inductive ApiError where
  | notFound (detail : String)
  | forbidden (detail : String)
  | badRequest (detail : String)
  | internalError (detail : String)
  | attributeError (missing : String)
deriving DecidableEq, Repr

/-- Outcome of a state-changing request: `ok` carries the committed
database, `err` carries the database at the moment of the raise (all the
modelled raises happen before the aborted mutation). -/
inductive Res (α : Type) : Type where
  | ok (db : DB) (val : α)
  | err (db : DB) (e : ApiError)
deriving DecidableEq, Repr

/-- Python truthiness of an `Optional[int]` column: `None` and `0` are
falsy, every other id is its own truthy value. -/
def truthyId (x : Option Nat) : Option Nat :=
  match x with
  | none => none
  | some 0 => none
  | some (n + 1) => some (n + 1)

/-- Lookup `crud.get(db, id=...)` on the order table (`.first()` by id). -/
def find_order (db : DB) (orderId : Nat) : Option Order :=
  db.orders.find? (fun o => o.id == orderId)

/-- Lookup of `Order.address` (relationship through `address_id`). -/
def find_address (db : DB) (addressId : Nat) : Option Address :=
  db.addresses.find? (fun a => a.id == addressId)

/-- Lookup of `Order.driver_association` (relationship through
`driver_assoc_id`). -/
def driver_association (db : DB) (o : Order) : Option TransportManager :=
  o.driver_assoc_id.bind (fun i => db.transportManagers.find? (fun tm => tm.id == i))

/-- Lookup of `Order.vehicle` (relationship through `vehicle_id`). -/
def vehicle_of (db : DB) (o : Order) : Option Vehicle :=
  o.vehicle_id.bind (fun i => db.vehicles.find? (fun v => v.id == i))

/-- Query `crud_transport_manager.get_by_company_and_manager_user`. -/
def tm_by_company_and_user (db : DB) (companyId userId : Nat) : Option TransportManager :=
  db.transportManagers.find? (fun tm => tm.transport_company_id == companyId && tm.manager_id == userId)

/-- Query `crud_recycling_manager.get_by_company_and_manager_user`. -/
def rm_by_company_and_user (db : DB) (companyId userId : Nat) : Option RecyclingManager :=
  db.recyclingManagers.find? (fun rm => rm.recycling_company_id == companyId && rm.manager_id == userId)

/-- Membership rows of one property-role user
(`db.query(PropertyManager).filter(PropertyManager.manager_id == user_id).all()`). -/
def pm_rows (db : DB) (userId : Nat) : List PropertyManager :=
  db.propertyManagers.filter (fun pm => pm.manager_id == userId)

/-- Community ids of one property company
(`db.query(Community.id).filter(Community.property_company_id == pc_id)`). -/
def communities_of_company (db : DB) (companyId : Nat) : List Nat :=
  (db.communities.filter (fun c => c.property_company_id == companyId)).map Community.id

/-- Accessible-community set of a property-role user, as accumulated by
`crud_order.get_by_property_manager` (`crud_order.py:37-51`); the same
loop is inlined in `orders.py:208-222`, `311-318` and `488-495`.  A
primary row contributes all communities of its company when the company
id is truthy; a non-primary row contributes its own `community_id` when
that is truthy.  The Python `set` is modelled up to list membership. -/
def accessible_communities (db : DB) (userId : Nat) : List Nat :=
  (pm_rows db userId).flatMap (fun pm =>
    if pm.is_primary then
      if pm.property_company_id ≠ 0 then communities_of_company db pm.property_company_id else []
    else
      match truthyId pm.community_id with
      | some cid => [cid]
      | none => [])

/-- Modelled from the spec: the accessible-community set in the spec's own
words (§4.2 / §8): "the union of (all communities of every company where
they are primary) ∪ (the single community of each non-primary
membership)".  Used only to compare the source computation against the
specified one. -/
def spec_accessible_communities (db : DB) (userId : Nat) : List Nat :=
  (pm_rows db userId).flatMap (fun pm =>
    if pm.is_primary then communities_of_company db pm.property_company_id
    else pm.community_id.toList)

/-- Pagination `offset(skip).limit(limit)` applied by every listing query. -/
def paginate (skip limit : Nat) (l : List Order) : List Order :=
  (l.drop skip).take limit

/-- Optional `status` filter of the listing queries (`if status: ...`). -/
def order_status_filter (statusF : Option OrderStatus) (l : List Order) : List Order :=
  match statusF with
  | some s => l.filter (fun o => o.status == s)
  | none => l

/-- Query `crud_order.get_by_customer`. -/
def get_by_customer (db : DB) (customerId skip limit : Nat) (statusF : Option OrderStatus) : List Order :=
  paginate skip limit (order_status_filter statusF
    (db.orders.filter (fun o => o.customer_id == customerId)))

/-- Query `crud_order.get_by_driver` (filter on `Order.driver_assoc_id`). -/
def get_by_driver (db : DB) (driverAssocId skip limit : Nat) (statusF : Option OrderStatus) : List Order :=
  paginate skip limit (order_status_filter statusF
    (db.orders.filter (fun o => o.driver_assoc_id == some driverAssocId)))

/-- Query `crud_order.get_by_transport_company`. -/
def get_by_transport_company (db : DB) (companyId skip limit : Nat) (statusF : Option OrderStatus) : List Order :=
  paginate skip limit (order_status_filter statusF
    (db.orders.filter (fun o => o.transport_company_id == some companyId)))

/-- Query `crud_order.get_by_recycling_manager` (filter on
`Order.recycling_manager_id`; memberships are not consulted). -/
def get_by_recycling_manager (db : DB) (managerId skip limit : Nat) (statusF : Option OrderStatus) : List Order :=
  paginate skip limit (order_status_filter statusF
    (db.orders.filter (fun o => o.recycling_manager_id == some managerId)))

/-- Query `crud_order.get_multi`. -/
def get_multi (db : DB) (skip limit : Nat) (statusF : Option OrderStatus) : List Order :=
  paginate skip limit (order_status_filter statusF db.orders)

/-- Query `crud_order.get_by_property_manager` (`crud_order.py:27-75`):
empty membership list short-circuits to `[]`, empty accessible set
short-circuits to `[]`, otherwise the orders joined to an address whose
community is accessible, status-filtered and paginated. -/
def get_by_property_manager (db : DB) (managerUserId skip limit : Nat) (statusF : Option OrderStatus) : List Order :=
  if (pm_rows db managerUserId).isEmpty then []
  else
    let acc := accessible_communities db managerUserId
    if acc.isEmpty then []
    else
      paginate skip limit (order_status_filter statusF
        (db.orders.filter (fun o =>
          match find_address db o.address_id with
          | some a => acc.contains a.community_id
          | none => false)))

/-- Deduplication standing in for Python's `list(set(...))`
(`orders.py:143`); CPython's resulting order is unspecified, the
embedding keeps first occurrences (only emptiness and membership are
relied upon by any theorem). -/
def dedup_first (l : List Nat) : List Nat :=
  l.eraseDups

/-- Endpoint `GET /orders` (`read_orders`, `orders.py:87-167`): the
role-dispatched listing with its optional status / transport-company /
driver-association filters. -/
def read_orders (db : DB) (u : User) (skip limit : Nat) (statusF : Option OrderStatus)
    (tcFilter daFilter : Option Nat) : Except ApiError (List Order) :=
  if u.is_superuser then
    match truthyId tcFilter with
    | some tc => .ok (get_by_transport_company db tc skip limit statusF)
    | none =>
      match truthyId daFilter with
      | some da => .ok (get_by_driver db da skip limit statusF)
      | none => .ok (get_multi db skip limit statusF)
  else if u.role = .customer then
    .ok (get_by_customer db u.id skip limit statusF)
  else if u.role = .property then
    .ok (get_by_property_manager db u.id skip limit statusF)
  else if u.role = .transport then
    let assocs := db.transportManagers.filter (fun tm => tm.manager_id == u.id)
    if assocs.isEmpty then
      .error (.forbidden "当前运输用户未关联任何运输公司或角色。")
    else
      match truthyId daFilter with
      | some da =>
        if ∃ a ∈ assocs, a.id = da ∧ a.role = some .driver then
          .ok (get_by_driver db da skip limit statusF)
        else .error (.forbidden "无权查看此司机的订单。")
      | none =>
        match truthyId tcFilter with
        | some tc =>
          if ∃ a ∈ assocs, a.transport_company_id = tc then
            .ok (get_by_transport_company db tc skip limit statusF)
          else .error (.forbidden "无权查看此运输公司的订单。")
        | none =>
          match dedup_first ((assocs.filter (fun a => a.is_primary || a.role == some .dispatcher)).map
              TransportManager.transport_company_id) with
          | tc :: _ => .ok (get_by_transport_company db tc skip limit statusF)
          | [] =>
            match assocs.filter (fun a => a.role == some .driver) with
            | d :: _ => .ok (get_by_driver db d.id skip limit statusF)
            | [] => .ok []
  else if u.role = .recycling then
    .ok (get_by_recycling_manager db u.id skip limit statusF)
  else
    .error (.forbidden "当前用户角色无权查看订单列表")

/-- Permission check of endpoint `GET /orders/{id}` (`read_order`,
`orders.py:196-259`), applied after the 404 lookup: `.ok ()` means the
order is returned to the actor. -/
def read_order_check (db : DB) (u : User) (o : Order) : Except ApiError Unit :=
  if u.is_superuser then .ok ()
  else if u.role = .customer then
    if o.customer_id = u.id then .ok ()
    else .error (.forbidden "没有足够的权限查看此订单")
  else if u.role = .property then
    match find_address db o.address_id with
    | none => .error (.internalError "订单地址信息不完整，无法验证物业权限")
    | some a =>
      if a.community_id = 0 then .error (.internalError "订单地址信息不完整，无法验证物业权限")
      else if (pm_rows db u.id).isEmpty then
        .error (.forbidden "当前物业人员未关联任何物业或小区")
      else if a.community_id ∈ accessible_communities db u.id then .ok ()
      else .error (.forbidden "此订单不属于您管理的小区范围")
  else if u.role = .transport then
    let canViewDirect : Bool :=
      (o.transport_manager_id == some u.id) ||
      (match driver_association db o with
       | some tm => tm.manager_id == u.id
       | none => false)
    let canView : Bool := canViewDirect ||
      (match truthyId o.transport_company_id with
       | some tc =>
         match tm_by_company_and_user db tc u.id with
         | some a => a.is_primary || a.role == some .dispatcher
         | none => false
       | none => false)
    if canView then .ok ()
    else .error (.forbidden "没有足够的权限查看此订单的运输信息")
  else if u.role = .recycling then
    match truthyId o.recycling_company_id with
    | some rc =>
      match rm_by_company_and_user db rc u.id with
      | some _ => .ok ()
      | none => .error (.forbidden "您无权查看此回收公司的订单信息。")
    | none => .error (.forbidden "订单尚未分配到回收公司。")
  else .error (.forbidden "您的角色无权查看此订单详情")

/-- Request body of `PUT /orders/{id}/status`: the `OrderStatusUpdate`
Pydantic schema exactly as declared in `schemas/order.py` (note it has no
`driver_assoc_id`, `vehicle_id`, `transport_company_id` or
`recycling_company_id` field).  An absent optional field is `none`
(`model_dump(exclude_unset=True)` drops it). -/
structure OrderStatusUpdate where
  status : OrderStatus
  property_notes : Option String := none
  transport_notes : Option String := none
  recycling_notes : Option String := none
  driver_id : Option Nat := none
  vehicle_plate : Option String := none
  transport_route : Option String := none
  recycling_station_id : Option Nat := none
  waste_weight : Option Nat := none
  actual_pickup_time : Option Nat := none
  delivery_time : Option Nat := none
  recycling_confirm_time : Option Nat := none
deriving DecidableEq, Repr

/-- The `update_kwargs` dictionary of `update_order_status`
(`orders.py:294-295` plus the keys individual branches add).  Only keys
that are also `Order` columns are listed: `transport_notes`, `driver_id`,
`vehicle_plate` and `recycling_station_id` are not columns of the `Order`
model and are dropped by the generic update (see `apply_update_status`). -/
structure KW where
  property_notes : Option String := none
  recycling_notes : Option String := none
  transport_route : Option String := none
  waste_weight : Option Nat := none
  actual_pickup_time : Option Nat := none
  delivery_time : Option Nat := none
  recycling_confirm_time : Option Nat := none
  property_confirm_time : Option Nat := none
  property_manager_id : Option Nat := none
  transport_manager_id : Option Nat := none
  recycling_manager_id : Option Nat := none
  recycling_company_id : Option Nat := none
deriving DecidableEq, Repr

/-- Column-relevant content of `status_update.model_dump(exclude_unset=True)`
with the `status` key popped (`orders.py:294-295`). -/
def kw_of_payload (p : OrderStatusUpdate) : KW :=
  { property_notes := p.property_notes
    recycling_notes := p.recycling_notes
    transport_route := p.transport_route
    waste_weight := p.waste_weight
    actual_pickup_time := p.actual_pickup_time
    delivery_time := p.delivery_time
    recycling_confirm_time := p.recycling_confirm_time }

/-- Application of `crud_order.update_status` (`crud_order.py:125-138`) to
one order row: the milestone timestamp of the target status is defaulted
to `now` when the kwargs do not carry it, then `status` and the present
kwargs are applied.  The generic field application is `CRUDBase.update`;
`app/crud/base.py` is not part of the sources, so that part is modelled
from the spec: §6 describes the consumed CRUD as simple lookup/update
interfaces, i.e. each provided column value overwrites the row's column. -/
def apply_update_status (o : Order) (target : OrderStatus) (kw : KW) (now : Nat) : Order :=
  let kw :=
    if target = .propertyConfirmed ∧ kw.property_confirm_time = none then
      { kw with property_confirm_time := some now }
    else if target = .delivered ∧ kw.delivery_time = none then
      { kw with delivery_time := some now }
    else if target = .recyclingConfirmed ∧ kw.recycling_confirm_time = none then
      { kw with recycling_confirm_time := some now }
    else kw
  { o with
    status := target
    property_notes := kw.property_notes <|> o.property_notes
    recycling_notes := kw.recycling_notes <|> o.recycling_notes
    transport_route := kw.transport_route <|> o.transport_route
    waste_weight := kw.waste_weight <|> o.waste_weight
    actual_pickup_time := kw.actual_pickup_time <|> o.actual_pickup_time
    delivery_time := kw.delivery_time <|> o.delivery_time
    recycling_confirm_time := kw.recycling_confirm_time <|> o.recycling_confirm_time
    property_confirm_time := kw.property_confirm_time <|> o.property_confirm_time
    property_manager_id := kw.property_manager_id <|> o.property_manager_id
    transport_manager_id := kw.transport_manager_id <|> o.transport_manager_id
    recycling_manager_id := kw.recycling_manager_id <|> o.recycling_manager_id
    recycling_company_id := kw.recycling_company_id <|> o.recycling_company_id }

/-- Replacement of one order row after `crud_order.update_status`. -/
def replace_order (db : DB) (o : Order) : DB :=
  { db with orders := db.orders.map (fun x => if x.id = o.id then o else x) }

/-- Row update `crud_transport_manager.update(db_obj, {"driver_status": s})`
(generic field update, modelled from the spec as for `apply_update_status`). -/
def set_driver_status (db : DB) (tmId : Nat) (s : DriverStatus) : DB :=
  { db with transportManagers :=
      db.transportManagers.map (fun tm => if tm.id = tmId then { tm with driver_status := some s } else tm) }

/-- Row update `crud_vehicle.update(db_obj, {"status": s})` (generic field
update, modelled from the spec as for `apply_update_status`). -/
def set_vehicle_status (db : DB) (vId : Nat) (s : VehicleStatus) : DB :=
  { db with vehicles :=
      db.vehicles.map (fun v => if v.id = vId then { v with status := s } else v) }

/-- Final step shared by every accepted transition: the
`crud_order.update_status` call at `orders.py:515`. -/
def finalize_status (db : DB) (o : Order) (target : OrderStatus) (kw : KW) (now : Nat) : Res Order :=
  let o2 := apply_update_status o target kw now
  .ok (replace_order db o2) o2

/-- Rejection message logic of the PROPERTY_CONFIRMED else-branch
(`orders.py:322-325`; sequential reassignment, last write wins). -/
def property_confirm_reject_msg (u : User) (cur : OrderStatus) : String :=
  if u.role ≠ .property then "只有物业管理员可以确认订单。"
  else if cur ≠ .pending then "只能从待处理状态更改为物业确认状态。"
  else "只有物业管理员可以将待处理订单确认为物业已确认。"

/-- Rejection message logic of the TRANSPORT_ASSIGNED else-branch
(`orders.py:375-378`). -/
def transport_assign_reject_msg (u : User) (cur : OrderStatus) : String :=
  if u.role ≠ .transport then "您没有运输管理权限。"
  else if cur ≠ .propertyConfirmed then "订单必须为物业已确认状态才能分配运输。"
  else "只有运输调度员或主管可以将物业确认的订单分配运输。"

/-- Rejection message logic of the RECYCLING_CONFIRMED else-branch
(`orders.py:456-459`). -/
def recycling_confirm_reject_msg (u : User) (cur : OrderStatus) : String :=
  if u.role ≠ .recycling then "只有回收站管理员有权限。"
  else if cur ≠ .delivered then "订单必须为已送达状态才能进行回收确认。"
  else "只有回收站管理员可以将已送达的订单确认为回收站已确认。"

/-- Transport-side actor check shared by the TRANSPORTING and DELIVERED
branches (`orders.py:383-394`, `405-415`): the assigned driver, or a
primary/dispatcher member of the order's transport company. -/
def is_assigned_driver_or_company_manager (db : DB) (u : User) (o : Order) : Bool :=
  (match driver_association db o with
   | some tm => tm.manager_id == u.id
   | none => false) ||
  (match truthyId o.transport_company_id with
   | some tc =>
     match tm_by_company_and_user db tc u.id with
     | some a => a.is_primary || a.role == some .dispatcher
     | none => false
   | none => false)

/-- Revert block of the CANCELLED branch (`orders.py:504-509`): reached
only after `can_update` was established by a non-superuser path; when the
order is in TRANSPORT_ASSIGNED or TRANSPORTING its comparisons reference
the non-existent `DriverStatus.ON_TASK` / `VehicleStatus.ON_TASK`
members (an `AttributeError`), short-circuited away when the driver or
vehicle relationship is absent. -/
def cancel_revert_block (db : DB) (o : Order) (kw : KW) (now : Nat) : Res Order :=
  if o.status = .transportAssigned ∨ o.status = .transporting then
    match driver_association db o with
    | some _ => .err db (.attributeError "DriverStatus.ON_TASK")
    | none =>
      match vehicle_of db o with
      | some _ => .err db (.attributeError "VehicleStatus.ON_TASK")
      | none => finalize_status db o .cancelled kw now
  else finalize_status db o .cancelled kw now

/-- Endpoint `PUT /orders/{id}/status` (`update_order_status`,
`orders.py:279-545`).  Structure: 404 lookup, then the role/status
dispatch; a superuser short-circuits the whole dispatch
(`orders.py:300-301`) straight to `crud_order.update_status`, so no
role, scope or current-status check applies to superusers.  The
TRANSPORT_ASSIGNED branch reads `status_update.driver_assoc_id`
(`orders.py:333`) and the RECYCLING_CONFIRMED branch reads
`status_update.recycling_company_id` (`orders.py:432/435`); neither field
exists on the `OrderStatusUpdate` schema, so both branches raise
`AttributeError` before any validation or mutation.  The CANCELLED
revert block (`orders.py:504-509`) compares against the non-existent
`DriverStatus.ON_TASK` / `VehicleStatus.ON_TASK` members and is modelled
as the corresponding crash when its guard is reached with a driver or
vehicle relationship present. -/
def update_order_status (db : DB) (u : User) (orderId : Nat) (p : OrderStatusUpdate) (now : Nat) : Res Order :=
  match find_order db orderId with
  | none => .err db (.notFound "订单不存在")
  | some o =>
    let kw := kw_of_payload p
    if u.is_superuser then
      finalize_status db o p.status kw now
    else
      match p.status with
      | .propertyConfirmed =>
        if u.role = .property ∧ o.status = .pending then
          let kw := { kw with property_manager_id := some u.id,
                              property_confirm_time := some (kw.property_confirm_time.getD now) }
          match find_address db o.address_id with
          | none => .err db (.badRequest "订单地址或小区信息不完整，无法确认。")
          | some a =>
            if a.community_id = 0 then .err db (.badRequest "订单地址或小区信息不完整，无法确认。")
            else if (pm_rows db u.id).isEmpty then
              .err db (.forbidden "您未被指定为任何物业的管理员。")
            else if a.community_id ∈ accessible_communities db u.id then
              finalize_status db o .propertyConfirmed kw now
            else .err db (.forbidden "您无权确认此小区的订单。")
        else .err db (.badRequest (property_confirm_reject_msg u o.status))
      | .transportAssigned =>
        if u.role = .transport ∧ o.status = .propertyConfirmed then
          .err db (.attributeError "OrderStatusUpdate.driver_assoc_id")
        else .err db (.badRequest (transport_assign_reject_msg u o.status))
      | .transporting =>
        if u.role = .transport ∧ o.status = .transportAssigned then
          if is_assigned_driver_or_company_manager db u o then
            finalize_status db o .transporting
              { kw with actual_pickup_time := some (kw.actual_pickup_time.getD now) } now
          else .err db (.forbidden "只有订单的指定司机或公司调度/主管才能更新为运输中。")
        else .err db (.badRequest "只有运输人员可以将已分配运输的订单更新为运输中。")
      | .delivered =>
        if u.role = .transport ∧ o.status = .transporting then
          if is_assigned_driver_or_company_manager db u o then
            let kw := { kw with delivery_time := some (kw.delivery_time.getD now) }
            let db1 :=
              match driver_association db o with
              | some tm => set_driver_status db tm.id .available
              | none => db
            let db2 :=
              match vehicle_of db1 o with
              | some v => set_vehicle_status db1 v.id .available
              | none => db1
            finalize_status db2 o .delivered kw now
          else .err db (.forbidden "只有订单的指定司机或公司调度/主管才能更新为已送达。")
        else .err db (.badRequest "只有运输人员可以将运输中的订单更新为已送达。")
      | .recyclingConfirmed =>
        if u.role = .recycling ∧ o.status = .delivered then
          .err db (.attributeError "OrderStatusUpdate.recycling_company_id")
        else .err db (.badRequest (recycling_confirm_reject_msg u o.status))
      | .completed =>
        if u.role = .recycling ∧ o.status = .recyclingConfirmed then
          match truthyId o.recycling_company_id with
          | none => .err db (.badRequest "订单未关联回收公司，无法完成。")
          | some rc =>
            match rm_by_company_and_user db rc u.id with
            | none => .err db (.forbidden "您无权完成此回收公司的订单。")
            | some _ => finalize_status db o .completed kw now
        else .err db (.badRequest "只有回收站管理员可以将回收站确认的订单标记为完成。")
      | .cancelled =>
        if u.role = .customer ∧ o.customer_id = u.id ∧ o.status = .pending then
          cancel_revert_block db o kw now
        else if u.role = .property ∧ (o.status = .pending ∨ o.status = .propertyConfirmed) then
          match find_address db o.address_id with
          | none => .err db (.badRequest "订单地址或小区信息不完整，无法取消。")
          | some a =>
            if a.community_id = 0 then .err db (.badRequest "订单地址或小区信息不完整，无法取消。")
            else if (pm_rows db u.id).isEmpty then
              .err db (.forbidden "您未被指定为任何物业的管理员。")
            else if a.community_id ∈ accessible_communities db u.id then
              cancel_revert_block db o kw now
            else .err db (.forbidden "您无权取消此小区的订单。")
        else .err db (.badRequest "订单状态无法取消或您无权取消。")
      | .pending =>
        .err db (.forbidden "您无权将订单更新到此状态或不满足状态流转条件。")

/-- Customer-editable field allow-list of `update_order`
(`orders.py:571`). -/
def customer_allowed_fields : List String :=
  ["address_id", "waste_type", "waste_volume", "expected_pickup_time", "notes"]

/-- Property-editable field allow-list of `update_order`
(`orders.py:579`). -/
def property_allowed_fields : List String :=
  ["property_notes"]

/-- Permission/allow-list logic of endpoint `PUT /orders/{id}` for an
existing order (`update_order`, `orders.py:561-603`).  `keys` is
`order_in.model_dump(exclude_unset=True).keys()`; `.ok ()` means the
guard passes and the generic update is applied.  The transport branch is
an unconditional 403 (its allow-list code is commented out in the
source), and there is no recycling/admin branch at all: those roles fall
through with an empty allow-list, so any named field is a 400 and an
empty payload is a 403. -/
def update_order_guard (u : User) (o : Order) (keys : List String) : Except ApiError Unit :=
  if u.is_superuser then .ok ()
  else if u.role = .customer then
    if o.customer_id = u.id ∧ o.status = .pending then
      if ∀ k ∈ keys, k ∈ customer_allowed_fields then .ok ()
      else .error (.badRequest "您的角色无权更新字段")
    else .error (.forbidden "只能更新自己且状态为待处理的订单。")
  else if u.role = .property then
    if o.status = .pending ∨ o.status = .propertyConfirmed then
      if ∀ k ∈ keys, k ∈ property_allowed_fields then .ok ()
      else .error (.badRequest "您的角色无权更新字段")
    else .error (.badRequest "物业只能更新待处理或物业已确认状态的订单。")
  else if u.role = .transport then
    .error (.forbidden "运输人员通常通过状态更新来修改运输相关信息，或权限不足。")
  else
    if keys.isEmpty then
      .error (.forbidden "您无权修改此订单的这些字段或当前状态不允许修改。")
    else .error (.badRequest "您的角色无权更新字段")

/-- Pydantic `PropertyManagerCreate` (`schemas/property_manager.py`):
`role`, `is_primary`, `community_id`, `manager_id`.  Note it has no
`property_company_id` field although both `CRUDPropertyManager.create`
(`crud_property_manager.py:23-24`) and the create endpoint
(`property_managers.py:25`) read one. -/
structure PropertyManagerCreate where
  role : String
  is_primary : Bool
  community_id : Option Nat
  manager_id : Nat
deriving DecidableEq, Repr

/-- Pydantic `PropertyManagerUpdate`: all fields optional; an absent
field is `none` (`model_dump(exclude_unset=True)`). -/
structure PropertyManagerUpdate where
  role : Option String := none
  is_primary : Option Bool := none
  community_id : Option Nat := none
deriving DecidableEq, Repr

/-- Query `get_primary_manager_for_company` with its optional
`exclude_self_id` (`crud_property_manager.py:94-104`); the exclusion is
applied under Python truthiness of the id. -/
def primary_manager_for_company (db : DB) (companyId : Nat) (excludeId : Option Nat) : Option PropertyManager :=
  db.propertyManagers.find? (fun pm =>
    pm.property_company_id == companyId && pm.is_primary &&
    (match truthyId excludeId with
     | some ex => pm.id != ex
     | none => true))

/-- Operation `CRUDPropertyManager.create` (`crud_property_manager.py:10-40`).
The non-primary-without-community rejection (line 15) fires first; every
surviving call then evaluates `obj_in.property_company_id` (line 23-24)
— a field the `PropertyManagerCreate` schema does not declare — and
raises `AttributeError` before the duplicate-membership and
second-primary checks of lines 26-38, which are therefore dead code:
no membership row can be inserted through this operation. -/
def property_manager_crud_create (db : DB) (obj : PropertyManagerCreate) : Res Unit :=
  if obj.is_primary = false ∧ obj.community_id = none then
    .err db (.badRequest "非主要管理员必须关联一个小区 (community_id is required for non-primary managers).")
  else
    .err db (.attributeError "PropertyManagerCreate.property_company_id")

/-- Operation `CRUDPropertyManager.update` (`crud_property_manager.py:42-76`)
applied to the row `dbObj`: final-value computation for `is_primary` and
`community_id`, the non-primary-without-community check (escaped by a
truthy `role` in the update payload, line 57), nulling of `community_id`
for primaries, the promote-with-existing-primary rejection, then the
generic field application (`CRUDBase.update`; `app/crud/base.py` is not
among the sources, so the application itself is modelled from the spec:
each provided column value overwrites the row's column). -/
def property_manager_crud_update (db : DB) (dbObj : PropertyManager) (upd : PropertyManagerUpdate) : Res Unit :=
  let isPrimaryFinal := upd.is_primary.getD dbObj.is_primary
  let communityFinal := upd.community_id <|> dbObj.community_id
  if isPrimaryFinal = false ∧ communityFinal = none ∧ (upd.role = none ∨ upd.role = some "") then
    .err db (.badRequest "非主要管理员必须关联一个小区。")
  else if isPrimaryFinal = true ∧ dbObj.is_primary = false ∧
      (primary_manager_for_company db dbObj.property_company_id (some dbObj.id)).isSome then
    .err db (.badRequest "Property company already has another primary manager. Cannot set this manager as primary.")
  else
    let newPm : PropertyManager :=
      { dbObj with
        role := upd.role.getD dbObj.role
        is_primary := isPrimaryFinal
        community_id := if isPrimaryFinal then none else communityFinal }
    .ok { db with propertyManagers :=
            db.propertyManagers.map (fun pm => if pm.id = dbObj.id then newPm else pm) } ()

/-- Endpoint `PUT /property-managers/{assoc_id}`
(`update_property_manager_association`, `property_managers.py:117-168`):
404 lookup, permission resolution (superuser / acting primary of the
row's company / self-update without a primary-flag change), the
sole-primary demotion rejection of lines 153-158, then the CRUD update. -/
def update_property_manager_association (db : DB) (u : User) (assocId : Nat) (upd : PropertyManagerUpdate) : Res Unit :=
  match db.propertyManagers.find? (fun pm => pm.id == assocId) with
  | none => .err db (.notFound "Property manager association not found.")
  | some dbAssoc =>
    let actingPrimary : Bool :=
      if u.is_superuser then false
      else
        match db.propertyManagers.find? (fun pm =>
            pm.property_company_id == dbAssoc.property_company_id && pm.manager_id == u.id) with
        | some a => a.is_primary
        | none => false
    let canUpdate0 : Bool := u.is_superuser || actingPrimary
    let afterPermission : Bool → Res Unit := fun canU =>
      if canU = false then
        .err db (.forbidden "Not authorized to update this manager association.")
      else if dbAssoc.is_primary = true ∧ upd.is_primary = some false ∧
          (primary_manager_for_company db dbAssoc.property_company_id (some dbAssoc.id)).isNone then
        .err db (.badRequest "Cannot remove the only primary manager. Assign another primary manager first.")
      else property_manager_crud_update db dbAssoc upd
    if dbAssoc.manager_id = u.id ∧ canUpdate0 = false then
      match upd.is_primary with
      | some b =>
        if b ≠ dbAssoc.is_primary then
          .err db (.forbidden "Cannot change your own primary status.")
        else afterPermission canUpdate0
      | none => afterPermission true
    else afterPermission canUpdate0

/-- Endpoint `DELETE /property-managers/{assoc_id}`
(`remove_manager_from_property_company`, `property_managers.py:171-207`):
404 lookup, non-superuser self-removal rejection, permission resolution,
the sole-primary removal rejection of lines 199-204, then
`CRUDBase.remove` (not among the sources; modelled from the spec as
deletion of the row with that id). -/
def remove_manager_from_property_company (db : DB) (u : User) (assocId : Nat) : Res Unit :=
  match db.propertyManagers.find? (fun pm => pm.id == assocId) with
  | none => .err db (.notFound "Property manager association not found.")
  | some dbAssoc =>
    if dbAssoc.manager_id = u.id ∧ u.is_superuser = false then
      .err db (.forbidden "Cannot remove yourself using this endpoint. Contact a primary manager or superuser.")
    else
      let canRemove : Bool := u.is_superuser ||
        (match db.propertyManagers.find? (fun pm =>
            pm.property_company_id == dbAssoc.property_company_id && pm.manager_id == u.id) with
         | some a => a.is_primary
         | none => false)
      if canRemove = false then
        .err db (.forbidden "Not authorized to remove this manager association.")
      else if dbAssoc.is_primary = true ∧
          (primary_manager_for_company db dbAssoc.property_company_id (some dbAssoc.id)).isNone then
        .err db (.badRequest "Cannot remove the only primary manager. Assign another primary manager first or delete the company.")
      else
        .ok { db with propertyManagers := db.propertyManagers.filter (fun pm => pm.id != assocId) } ()

/-- Pydantic `OrderCreate` (`schemas/order.py`). -/
structure OrderCreate where
  address_id : Nat
  waste_type : String
  waste_volume : Nat
  expected_pickup_time : Option Nat := none
  notes : Option String := none
deriving DecidableEq, Repr

/-- Operation `CRUDOrder.create_with_customer` (`crud_order.py:140-156`).
`dateStr` models `datetime.now().strftime("%Y%m%d")`, `uuidHex` models
`uuid.uuid4().hex` (32 lowercase hexadecimal characters), `nextId` the
autoincremented primary key.  The address must exist and belong to the
creating customer, otherwise `ValueError` (surfaced as a 400 by the
endpoint) and nothing is inserted; on success the new order row carries
the generated `order_number` and the model defaults, in particular
`status = PENDING`. -/
def create_with_customer (db : DB) (obj : OrderCreate) (customerId : Nat)
    (dateStr : String) (uuidHex : List Char) (nextId : Nat) : Res Order :=
  let order_number := "ORD-" ++ dateStr ++ "-" ++ String.mk ((uuidHex.take 8).map Char.toUpper)
  match db.addresses.find? (fun a => a.id == obj.address_id && a.user_id == customerId) with
  | none => .err db (.badRequest "无效的地址ID 或该地址不属于用户")
  | some _ =>
    let o : Order :=
      { id := nextId
        order_number := order_number
        customer_id := customerId
        address_id := obj.address_id
        waste_type := obj.waste_type
        waste_volume := obj.waste_volume
        waste_weight := none
        expected_pickup_time := obj.expected_pickup_time
        actual_pickup_time := none
        delivery_time := none
        notes := obj.notes
        property_manager_id := none
        property_confirm_time := none
        property_notes := none
        transport_company_id := none
        transport_manager_id := none
        driver_assoc_id := none
        vehicle_id := none
        transport_route := none
        recycling_manager_id := none
        recycling_company_id := none
        recycling_confirm_time := none
        recycling_notes := none
        status := .pending }
    .ok { db with orders := db.orders ++ [o] } o

/-- Endpoint `POST /orders` (`create_order`, `orders.py:35-56`): only a
customer or a superuser may create; then `create_with_customer` with the
actor as the owning customer. -/
def create_order (db : DB) (u : User) (obj : OrderCreate)
    (dateStr : String) (uuidHex : List Char) (nextId : Nat) : Res Order :=
  if u.role ≠ .customer ∧ u.is_superuser = false then
    .err db (.forbidden "没有足够的权限执行此操作")
  else create_with_customer db obj u.id dateStr uuidHex nextId

/-- Projection: whether a request outcome committed. -/
def Res.isOk {α : Type} : Res α → Bool
  | .ok _ _ => true
  | .err _ _ => false

/-- Projection: the database carried by an outcome (the committed one on
`ok`, the unchanged-at-raise one on `err`). -/
def Res.db {α : Type} : Res α → DB
  | .ok db _ => db
  | .err db _ => db

/-- Projection: the status of the returned order of a committed
status-update request. -/
def res_order_status (r : Res Order) : Option OrderStatus :=
  match r with
  | .ok _ o => some o.status
  | .err _ _ => none

/-- Projection: the `driver_status` of a transport-manager row. -/
def driver_status_in (db : DB) (tmId : Nat) : Option (Option DriverStatus) :=
  (db.transportManagers.find? (fun tm => tm.id == tmId)).map TransportManager.driver_status

/-- Projection: the status of a vehicle row. -/
def vehicle_status_in (db : DB) (vId : Nat) : Option VehicleStatus :=
  (db.vehicles.find? (fun v => v.id == vId)).map Vehicle.status

/-- Count of primary membership rows of one property company; the
"at most one primary" invariant is `primary_count db cid ≤ 1`. -/
def primary_count (db : DB) (companyId : Nat) : Nat :=
  db.propertyManagers.countP (fun pm => pm.property_company_id == companyId && pm.is_primary)

/-- Lowercase hexadecimal alphabet of `uuid4().hex`. -/
def lower_hex_chars : List Char := "0123456789abcdef".data

/-- Uppercase hexadecimal alphabet of the generated order-number suffix. -/
def upper_hex_chars : List Char := "0123456789ABCDEF".data

/-- Template order row for the concrete scenarios: field values are the
model defaults of a freshly created PENDING order. -/
def base_order : Order :=
  { id := 0
    order_number := "ORD-20240101-ABCDEF01"
    customer_id := 1000
    address_id := 1
    waste_type := "建筑垃圾"
    waste_volume := 2
    waste_weight := none
    expected_pickup_time := none
    actual_pickup_time := none
    delivery_time := none
    notes := none
    property_manager_id := none
    property_confirm_time := none
    property_notes := none
    transport_company_id := none
    transport_manager_id := none
    driver_assoc_id := none
    vehicle_id := none
    transport_route := none
    recycling_manager_id := none
    recycling_company_id := none
    recycling_confirm_time := none
    recycling_notes := none
    status := .pending }

/-- Scenario order 1: freshly created PENDING order at address 1. -/
def ex_order1 : Order := { base_order with id := 1 }

/-- Scenario order 2: PROPERTY_CONFIRMED order at address 2. -/
def ex_order2 : Order := { base_order with id := 2, address_id := 2, status := .propertyConfirmed }

/-- Scenario order 3: TRANSPORT_ASSIGNED order with dispatcher 60, driver
row 5 and vehicle 7 of company 300. -/
def ex_order3 : Order :=
  { base_order with id := 3, status := .transportAssigned, transport_company_id := some 300,
                    transport_manager_id := some 60, driver_assoc_id := some 5, vehicle_id := some 7 }

/-- Scenario order 4: TRANSPORTING order at address 3 with the same
transport resources. -/
def ex_order4 : Order :=
  { base_order with id := 4, address_id := 3, status := .transporting,
                    transport_company_id := some 300, transport_manager_id := some 60,
                    driver_assoc_id := some 5, vehicle_id := some 7 }

/-- Scenario order 5: COMPLETED order attached to recycling company 400. -/
def ex_order5 : Order :=
  { base_order with id := 5, status := .completed, recycling_company_id := some 400 }

/-- Scenario order 6: second PROPERTY_CONFIRMED order at address 2. -/
def ex_order6 : Order := { base_order with id := 6, address_id := 2, status := .propertyConfirmed }

/-- Concrete scenario database shared by the witnesses and
counterexamples: property company 100 owns communities 10 and 11,
company 200 owns community 20, company 900 owns community 30; user 50 is
primary of company 100 and community-20-scoped member of company 200;
user 51 is primary of company 200; transport company 300 has dispatcher
user 60 (row 4), busy driver user 61 (row 5) and available driver user
62 (row 6); vehicle 7 is in use, vehicle 8 available; recycling company
400 has primary user 70 (row 7); customer 1000 owns addresses 1
(community 10), 2 (community 20) and 3 (community 30); orders 1-6 cover
the lifecycle stages. -/
def ex_db : DB :=
  { addresses := [⟨1, 1000, 10⟩, ⟨2, 1000, 20⟩, ⟨3, 1000, 30⟩]
    communities := [⟨10, 100⟩, ⟨11, 100⟩, ⟨20, 200⟩, ⟨30, 900⟩]
    propertyManagers :=
      [⟨1, 100, 50, "主管理员", true, none⟩,
       ⟨2, 200, 50, "普通管理员", false, some 20⟩,
       ⟨3, 200, 51, "主管理员", true, none⟩]
    transportManagers :=
      [⟨4, 300, 60, false, some .dispatcher, none⟩,
       ⟨5, 300, 61, false, some .driver, some .busy⟩,
       ⟨6, 300, 62, false, some .driver, some .available⟩]
    recyclingManagers := [⟨7, 400, 70, true⟩]
    vehicles := [⟨7, 300, .inUse⟩, ⟨8, 300, .available⟩]
    orders := [ex_order1, ex_order2, ex_order3, ex_order4, ex_order5, ex_order6] }

/-- Superuser actor of the concrete scenarios. -/
def su_user : User := ⟨9, .admin, true⟩

/-- Dispatcher actor (user 60) of transport company 300. -/
def dispatcher_user : User := ⟨60, .transport, false⟩

/-- Property actor user 50 (primary of company 100, scoped member of
company 200). -/
def property_user_50 : User := ⟨50, .property, false⟩

/-- Customer actor owning the scenario orders and addresses. -/
def customer_user : User := ⟨1000, .customer, false⟩

/-- Transport-role actor with zero membership rows. -/
def lone_transport_user : User := ⟨999, .transport, false⟩

/-- Property-role actor with zero membership rows. -/
def lone_property_user : User := ⟨998, .property, false⟩

/-- Recycling-role actor with zero membership rows. -/
def lone_recycling_user : User := ⟨997, .recycling, false⟩

/-! Theorems.  Each claim of the specification is settled by exactly one
theorem below; shared helper lemmas precede them. -/

/-- Helper: `crud_order.update_status` always sets the status column to
the requested target. -/
theorem apply_update_status_status (o : Order) (t : OrderStatus) (kw : KW) (now : Nat) :
    (apply_update_status o t kw now).status = t := rfl

/-- C2 counterexample: a superuser request jumping PENDING straight to
COMPLETED on order 1 is accepted (not rejected), so a superuser can skip
states. -/
theorem superuser_skips_states_counterexample :
    (find_order ex_db 1).map Order.status = some .pending ∧
    res_order_status (update_order_status ex_db su_user 1 { status := .completed } 7) = some .completed ∧
    (update_order_status ex_db su_user 1 { status := .completed } 7).isOk = true := by
  decide

/-- C2 (amended): a superuser status-update request bypasses the
role/scope guards AND the current-state precondition: for every existing
order and every target status the request is accepted and commits the
target status (`orders.py:300-301` sets `can_update` before the
status-dispatch chain, which is skipped entirely). -/
theorem superuser_status_update_bypasses_state_precondition
    (db : DB) (u : User) (orderId : Nat) (p : OrderStatusUpdate) (now : Nat) (o : Order)
    (hsu : u.is_superuser = true) (hfind : find_order db orderId = some o) :
    update_order_status db u orderId p now =
      .ok (replace_order db (apply_update_status o p.status (kw_of_payload p) now))
          (apply_update_status o p.status (kw_of_payload p) now) ∧
    res_order_status (update_order_status db u orderId p now) = some p.status := by
  unfold update_order_status
  rw [hfind]
  simp [hsu, finalize_status, res_order_status, apply_update_status_status]

/-- C2 witness: the amended theorem applied to the superuser jump of the
counterexample input. -/
theorem superuser_status_update_witness :
    update_order_status ex_db su_user 1 { status := .completed } 7 =
      .ok (replace_order ex_db (apply_update_status ex_order1 .completed
            (kw_of_payload { status := .completed }) 7))
          (apply_update_status ex_order1 .completed
            (kw_of_payload { status := .completed }) 7) ∧
    res_order_status (update_order_status ex_db su_user 1 { status := .completed } 7) =
      some .completed :=
  superuser_status_update_bypasses_state_precondition ex_db su_user 1 { status := .completed } 7
    ex_order1 rfl (by decide)

/-- C7 counterexample: a superuser re-submission of an already-applied
transition (target COMPLETED on the already COMPLETED order 5) is
accepted, not rejected. -/
theorem resubmission_accepted_for_superuser_counterexample :
    (find_order ex_db 5).map Order.status = some .completed ∧
    (update_order_status ex_db su_user 5 { status := .completed } 7).isOk = true := by
  decide

/-- C7 (amended): for every NON-superuser actor, a status-update request
whose target equals the order's current status is rejected with an error
and the database is unchanged; a superuser's identical request is
accepted (see the C2 theorems). -/
theorem same_status_resubmission_rejected_for_non_superusers
    (db : DB) (u : User) (orderId : Nat) (p : OrderStatusUpdate) (now : Nat) (o : Order)
    (hns : u.is_superuser = false) (hfind : find_order db orderId = some o)
    (hsame : p.status = o.status) :
    ∃ e, update_order_status db u orderId p now = .err db e := by
  unfold update_order_status
  rw [hfind, hsame]
  cases h : o.status <;> simp [hns, h]

/-- C7 witness: the amended theorem applied to the customer re-submitting
PENDING on the pending order 1. -/
theorem same_status_resubmission_witness :
    ∃ e, update_order_status ex_db customer_user 1 { status := .pending } 7 = .err ex_db e :=
  same_status_resubmission_rejected_for_non_superusers ex_db customer_user 1
    { status := .pending } 7 ex_order1 rfl (by decide) rfl

/-- C3 (code bug): the fully valid TRANSPORT_ASSIGNED request — dispatcher
60 of company 300, order 2 in PROPERTY_CONFIRMED, driver row 6 AVAILABLE
and vehicle 8 AVAILABLE in the database — does not perform the
assignment: `orders.py:333` reads `status_update.driver_assoc_id`, a
field the `OrderStatusUpdate` schema does not declare, so the request
dies with `AttributeError` (and even past that point the success path
references the non-existent `DriverStatus.ON_TASK` /
`VehicleStatus.ON_TASK` members).  The database is unchanged. -/
theorem transport_assignment_crashes_on_missing_payload_fields :
    update_order_status ex_db dispatcher_user 2
        { status := .transportAssigned, transport_notes := some "司机6 车辆8" } 7 =
      .err ex_db (.attributeError "OrderStatusUpdate.driver_assoc_id") ∧
    driver_status_in ex_db 6 = some (some .available) ∧
    vehicle_status_in ex_db 8 = some .available := by
  decide

/-- C4 (code bug): the TRANSPORT_ASSIGNED request in a state where the
only assignable resources are a BUSY driver (row 5) and an IN_USE
vehicle (7) — order 6 in PROPERTY_CONFIRMED — fails, and every status is
left unchanged, but NOT with a constraint-specific ResourceConflict
error: the `AttributeError` at `orders.py:333` fires before the
company/role/availability validations of lines 348-365, which are
unreachable, so every such request fails with the same generic crash. -/
theorem busy_resource_assignment_fails_generically :
    update_order_status ex_db dispatcher_user 6
        { status := .transportAssigned, transport_notes := some "司机5 车辆7" } 7 =
      .err ex_db (.attributeError "OrderStatusUpdate.driver_assoc_id") ∧
    driver_status_in ex_db 5 = some (some .busy) ∧
    vehicle_status_in ex_db 7 = some .inUse := by
  decide

/-- C5 (code bug): cancelling order 3, which is TRANSPORT_ASSIGNED with
driver row 5 BUSY and vehicle 7 IN_USE, leaves both resource statuses
unchanged instead of reverting them to AVAILABLE.  Only a superuser can
cancel from an assigned state (non-superuser cancellation requires
PENDING/PROPERTY_CONFIRMED), and the superuser path skips the revert
block of `orders.py:504-509` entirely; that block is additionally
unexecutable when reached, as it compares against the non-existent
`DriverStatus.ON_TASK` / `VehicleStatus.ON_TASK` members. -/
theorem cancel_from_assigned_leaves_resources_busy :
    (update_order_status ex_db su_user 3 { status := .cancelled } 7).isOk = true ∧
    res_order_status (update_order_status ex_db su_user 3 { status := .cancelled } 7) =
      some .cancelled ∧
    driver_status_in (update_order_status ex_db su_user 3 { status := .cancelled } 7).db 5 =
      some (some .busy) ∧
    vehicle_status_in (update_order_status ex_db su_user 3 { status := .cancelled } 7).db 7 =
      some .inUse := by
  decide


/-- C8 counterexample: a transport-role actor with zero membership rows
does NOT get an empty order list — the list endpoint fails with 403
(`orders.py:119-120`). -/
theorem zero_membership_transport_list_is_an_error :
    read_orders ex_db lone_transport_user 0 100 none none none =
      .error (.forbidden "当前运输用户未关联任何运输公司或角色。") := by
  rfl

/-- C8 (amended): for an actor with zero membership rows of the relevant
org type, direct single-order access is a 403 for the property, transport
and recycling roles, and the list endpoint returns an empty list (not an
error) for the property role and for the recycling role (whose list is
filtered by `recycling_manager_id`, not by membership); for the transport
role the list endpoint instead fails with a 403.  For transport
single-order access the order must not name the actor as its dispatcher
(`transport_manager_id`), the only non-membership access grant. -/
theorem empty_scope_listing_and_single_access
    (db : DB) (u : User) (skip limit : Nat) (statusF : Option OrderStatus) (tcF daF : Option Nat)
    (hns : u.is_superuser = false) :
    (u.role = .property → pm_rows db u.id = [] →
      read_orders db u skip limit statusF tcF daF = .ok [] ∧
      (∀ o a, find_address db o.address_id = some a → a.community_id ≠ 0 →
        read_order_check db u o = .error (.forbidden "当前物业人员未关联任何物业或小区"))) ∧
    (u.role = .transport → db.transportManagers.filter (fun tm => tm.manager_id == u.id) = [] →
      read_orders db u skip limit statusF tcF daF =
        .error (.forbidden "当前运输用户未关联任何运输公司或角色。") ∧
      (∀ o, o.transport_manager_id ≠ some u.id →
        read_order_check db u o = .error (.forbidden "没有足够的权限查看此订单的运输信息"))) ∧
    (u.role = .recycling → db.recyclingManagers.filter (fun rm => rm.manager_id == u.id) = [] →
      ((∀ o ∈ db.orders, o.recycling_manager_id ≠ some u.id) →
        read_orders db u skip limit statusF tcF daF = .ok []) ∧
      (∀ o, ∃ m, read_order_check db u o = .error (.forbidden m))) := by
  refine ⟨?_, ?_, ?_⟩
  · intro hrole hpm
    constructor
    · simp [read_orders, hns, hrole, get_by_property_manager, hpm]
    · intro o a hfa hcid
      simp [read_order_check, hns, hrole, hfa, hcid, hpm]
  · intro hrole hfil
    have hnone : ∀ tm ∈ db.transportManagers, (tm.manager_id == u.id) = false := by
      intro tm htm
      by_contra hne
      have hmem : tm ∈ db.transportManagers.filter (fun tm => tm.manager_id == u.id) :=
        List.mem_filter.mpr ⟨htm, by simpa using hne⟩
      simp [hfil] at hmem
    have htmnone : ∀ tc, tm_by_company_and_user db tc u.id = none := by
      intro tc
      unfold tm_by_company_and_user
      cases hff : db.transportManagers.find? (fun tm =>
          tm.transport_company_id == tc && tm.manager_id == u.id) with
      | none => rfl
      | some a =>
        have hmem : a ∈ db.transportManagers := List.mem_of_find?_eq_some hff
        have hpred := List.find?_some hff
        simp only [Bool.and_eq_true] at hpred
        have hcontra := hnone a hmem
        rw [hpred.2] at hcontra
        simp at hcontra
    constructor
    · simp [read_orders, hns, hrole, hfil]
    · intro o hdisp
      cases hd : driver_association db o with
      | none =>
        cases htc : truthyId o.transport_company_id <;>
          simp [read_order_check, hns, hrole, hd, htc, htmnone, hdisp]
      | some tm =>
        have htm : tm ∈ db.transportManagers := by
          unfold driver_association at hd
          obtain ⟨i, hi, hfind⟩ := Option.bind_eq_some.mp hd
          exact List.mem_of_find?_eq_some hfind
        have hmf : (tm.manager_id == u.id) = false := hnone tm htm
        cases htc : truthyId o.transport_company_id <;>
          simp [read_order_check, hns, hrole, hd, htc, htmnone, hdisp, hmf]
  · intro hrole hfil
    have hnone : ∀ rm ∈ db.recyclingManagers, (rm.manager_id == u.id) = false := by
      intro rm hrm
      by_contra hne
      have hmem : rm ∈ db.recyclingManagers.filter (fun rm => rm.manager_id == u.id) :=
        List.mem_filter.mpr ⟨hrm, by simpa using hne⟩
      simp [hfil] at hmem
    have hrmnone : ∀ rc, rm_by_company_and_user db rc u.id = none := by
      intro rc
      unfold rm_by_company_and_user
      cases hff : db.recyclingManagers.find? (fun rm =>
          rm.recycling_company_id == rc && rm.manager_id == u.id) with
      | none => rfl
      | some a =>
        have hmem : a ∈ db.recyclingManagers := List.mem_of_find?_eq_some hff
        have hpred := List.find?_some hff
        simp only [Bool.and_eq_true] at hpred
        have hcontra := hnone a hmem
        rw [hpred.2] at hcontra
        simp at hcontra
    constructor
    · intro hord
      have hflt : db.orders.filter (fun o => o.recycling_manager_id == some u.id) = [] := by
        apply List.filter_eq_nil_iff.mpr
        intro o ho
        simpa using hord o ho
      cases statusF <;>
        simp [read_orders, hns, hrole, get_by_recycling_manager, hflt, order_status_filter,
          paginate]
    · intro o
      cases htr : truthyId o.recycling_company_id with
      | none =>
        exact ⟨"订单尚未分配到回收公司。", by simp [read_order_check, hns, hrole, htr]⟩
      | some rc =>
        exact ⟨"您无权查看此回收公司的订单信息。",
          by simp [read_order_check, hns, hrole, htr, hrmnone]⟩

/-- C8 witness: the amended theorem applied to the zero-membership actors
997 (recycling), 998 (property) and 999 (transport) on the scenario
database; each hypothesis is discharged on the concrete data. -/
theorem empty_scope_witness :
    (read_orders ex_db lone_property_user 0 100 none none none = .ok [] ∧
      read_order_check ex_db lone_property_user ex_order1 =
        .error (.forbidden "当前物业人员未关联任何物业或小区")) ∧
    (read_orders ex_db lone_transport_user 0 100 none none none =
        .error (.forbidden "当前运输用户未关联任何运输公司或角色。") ∧
      read_order_check ex_db lone_transport_user ex_order3 =
        .error (.forbidden "没有足够的权限查看此订单的运输信息")) ∧
    (read_orders ex_db lone_recycling_user 0 100 none none none = .ok [] ∧
      ∃ m, read_order_check ex_db lone_recycling_user ex_order5 = .error (.forbidden m)) := by
  have hp := empty_scope_listing_and_single_access ex_db lone_property_user 0 100 none none none rfl
  have ht := empty_scope_listing_and_single_access ex_db lone_transport_user 0 100 none none none rfl
  have hr := empty_scope_listing_and_single_access ex_db lone_recycling_user 0 100 none none none rfl
  refine ⟨⟨(hp.1 rfl (by decide)).1, ?_⟩, ⟨(ht.2.1 rfl (by decide)).1, ?_⟩, ⟨?_, ?_⟩⟩
  · exact (hp.1 rfl (by decide)).2 ex_order1 ⟨1, 1000, 10⟩ (by decide) (by decide)
  · exact (ht.2.1 rfl (by decide)).2 ex_order3 (by decide)
  · exact (hr.2.2 rfl (by decide)).1 (by decide)
  · exact (hr.2.2 rfl (by decide)).2 ex_order5

/-- C9 counterexample: dispatcher 60 — the assigned transport manager and
a dispatcher of the order's transport company — requests a general update
of only `transport_notes` on order 3, which is in the transport phase
(TRANSPORT_ASSIGNED); the transport branch of `update_order`
(`orders.py:582-595`) rejects unconditionally (its allow-list code is
commented out), so transport actors have NO general-update allow-list. -/
theorem transport_phase_update_rejected_counterexample :
    update_order_guard dispatcher_user ex_order3 ["transport_notes"] =
      .error (.forbidden "运输人员通常通过状态更新来修改运输相关信息，或权限不足。") := by
  rfl

/-- C9 (amended): general (non-status) updates by non-superusers are
gated as follows — a customer passes iff the order is their own, is
PENDING, and every named field is in the customer allow-list; a property
actor passes iff the order is PENDING or PROPERTY_CONFIRMED and every
named field is in {property_notes}; transport and recycling actors are
always rejected (the spec's phase-appropriate allow-lists for them do not
exist in the code). -/
theorem general_update_allowlists
    (u : User) (o : Order) (keys : List String) (hns : u.is_superuser = false) :
    (u.role = .customer →
      (update_order_guard u o keys = .ok () ↔
        o.customer_id = u.id ∧ o.status = .pending ∧ ∀ k ∈ keys, k ∈ customer_allowed_fields)) ∧
    (u.role = .property →
      (update_order_guard u o keys = .ok () ↔
        (o.status = .pending ∨ o.status = .propertyConfirmed) ∧
          ∀ k ∈ keys, k ∈ property_allowed_fields)) ∧
    (u.role = .transport → ∃ e, update_order_guard u o keys = .error e) ∧
    (u.role = .recycling → ∃ e, update_order_guard u o keys = .error e) := by
  refine ⟨?_, ?_, ?_, ?_⟩ <;> intro hrole
  · unfold update_order_guard
    simp only [hns, hrole]
    split_ifs with h1 h2 <;> simp_all
  · unfold update_order_guard
    simp only [hns, hrole]
    split_ifs with h1 h2 <;> simp_all
  · unfold update_order_guard
    simp only [hns, hrole]
    exact ⟨.forbidden "运输人员通常通过状态更新来修改运输相关信息，或权限不足。", by simp⟩
  · unfold update_order_guard
    simp only [hns, hrole]
    cases keys with
    | nil => exact ⟨.forbidden "您无权修改此订单的这些字段或当前状态不允许修改。", by simp⟩
    | cons k ks => exact ⟨.badRequest "您的角色无权更新字段", by simp⟩

/-- C9 witness: the amended theorem applied to the owning customer on the
pending order 1 — an update naming only `notes` passes, an update naming
`price` is rejected. -/
theorem general_update_allowlists_witness :
    update_order_guard customer_user ex_order1 ["notes"] = .ok () ∧
    update_order_guard customer_user ex_order1 ["price"] ≠ .ok () := by
  have h1 := general_update_allowlists customer_user ex_order1 ["notes"] rfl
  have h2 := general_update_allowlists customer_user ex_order1 ["price"] rfl
  constructor
  · exact (h1.1 rfl).mpr ⟨rfl, rfl, by decide⟩
  · intro hok
    have hk := ((h2.1 rfl).mp hok).2.2 "price" (by simp)
    exact absurd hk (by decide)

/-- Helper: uppercasing a lowercase hexadecimal digit yields an uppercase
hexadecimal digit (finite check over the two alphabets). -/
theorem toUpper_lower_hex : ∀ d ∈ lower_hex_chars, d.toUpper ∈ upper_hex_chars := by
  decide

/-- C10: order creation validates address ownership — if the payload's
`address_id` does not reference an address of the creating customer,
`create_with_customer` raises (surfaced as a 400) and no order row is
inserted; on success the new order is PENDING, owned by the creator, and
its `order_number` is `ORD-<date>-<suffix>` where the suffix is the first
8 characters of the uuid hex digest, uppercased — 8 uppercase
hexadecimal characters. -/
theorem order_creation_validates_address
    (db : DB) (u : User) (obj : OrderCreate) (dateStr : String) (uuidHex : List Char) (nextId : Nat)
    (hrole : u.role = .customer)
    (hhex : ∀ c ∈ uuidHex, c ∈ lower_hex_chars) (hlen : uuidHex.length = 32) :
    ((∀ a ∈ db.addresses, ¬(a.id = obj.address_id ∧ a.user_id = u.id)) →
      ∃ m, create_order db u obj dateStr uuidHex nextId = .err db (.badRequest m)) ∧
    (∀ a, db.addresses.find? (fun a => a.id == obj.address_id && a.user_id == u.id) = some a →
      ∃ db2 o2, create_order db u obj dateStr uuidHex nextId = .ok db2 o2 ∧
        db2.orders = db.orders ++ [o2] ∧
        o2.status = .pending ∧
        o2.customer_id = u.id ∧
        o2.order_number =
          "ORD-" ++ dateStr ++ "-" ++ String.mk ((uuidHex.take 8).map Char.toUpper) ∧
        ((uuidHex.take 8).map Char.toUpper).length = 8 ∧
        (∀ c ∈ (uuidHex.take 8).map Char.toUpper, c ∈ upper_hex_chars)) := by
  constructor
  · intro hnone
    have hfind : db.addresses.find? (fun a => a.id == obj.address_id && a.user_id == u.id) = none := by
      apply List.find?_eq_none.mpr
      intro a ha
      have := hnone a ha
      simpa using this
    refine ⟨"无效的地址ID 或该地址不属于用户", ?_⟩
    unfold create_order create_with_customer
    simp [hrole, hfind]
  · intro a hfind
    have h8 : ((uuidHex.take 8).map Char.toUpper).length = 8 := by
      simp [List.length_map, List.length_take, hlen]
    have hup : ∀ c ∈ (uuidHex.take 8).map Char.toUpper, c ∈ upper_hex_chars := by
      intro c hc
      obtain ⟨d, hd, rfl⟩ := List.mem_map.mp hc
      exact toUpper_lower_hex d (hhex d (List.take_subset 8 uuidHex hd))
    unfold create_order create_with_customer
    rw [hfind, if_neg (by simp [hrole])]
    exact ⟨_, _, rfl, rfl, rfl, rfl, rfl, h8, hup⟩

/-- C10 witness: customer 1000 creating an order at their own address 1
on the scenario database succeeds with a `ORD-<date>-<8-hex>` number;
the theorem is applied at a concrete uuid digest. -/
theorem order_creation_witness :
    ∃ db2 o2,
      create_order ex_db customer_user ⟨1, "建筑垃圾", 2, none, none⟩ "20240102"
          ("0123456789abcdef0123456789abcdef".data) 7 = .ok db2 o2 ∧
      db2.orders = ex_db.orders ++ [o2] ∧
      o2.status = .pending ∧
      o2.customer_id = customer_user.id ∧
      o2.order_number = "ORD-" ++ "20240102" ++ "-" ++
        String.mk ((("0123456789abcdef0123456789abcdef".data).take 8).map Char.toUpper) ∧
      ((("0123456789abcdef0123456789abcdef".data).take 8).map Char.toUpper).length = 8 ∧
      (∀ c ∈ (("0123456789abcdef0123456789abcdef".data).take 8).map Char.toUpper,
        c ∈ upper_hex_chars) :=
  (order_creation_validates_address ex_db customer_user ⟨1, "建筑垃圾", 2, none, none⟩
      "20240102" ("0123456789abcdef0123456789abcdef".data) 7 rfl (by decide) (by decide)).2
    ⟨1, 1000, 10⟩ (by decide)

/-- Helper: replacing the unique row with `dbAssoc`'s id by a row of the
same company preserves "at most one primary per company", provided a
promotion (non-primary row becoming primary) happens only when every
primary of that company already has `dbAssoc`'s id. -/
theorem primary_count_update_le
    (l : List PropertyManager) (dbAssoc newPm : PropertyManager) (cid : Nat)
    (hnodup : (l.map PropertyManager.id).Nodup)
    (hmem : dbAssoc ∈ l)
    (hid : newPm.id = dbAssoc.id)
    (hcompany : newPm.property_company_id = dbAssoc.property_company_id)
    (hpromo : newPm.is_primary = true → dbAssoc.is_primary = false →
      ∀ pm ∈ l, pm.property_company_id = dbAssoc.property_company_id →
        pm.is_primary = true → pm.id = dbAssoc.id)
    (hle : l.countP (fun pm => pm.property_company_id == cid && pm.is_primary) ≤ 1) :
    ((l.map (fun pm => if pm.id = dbAssoc.id then newPm else pm)).countP
      (fun pm => pm.property_company_id == cid && pm.is_primary)) ≤ 1 := by
  rw [List.countP_map]
  by_cases hp : (newPm.property_company_id == cid && newPm.is_primary) = true
  · by_cases hdp : dbAssoc.is_primary = true
    · refine le_trans (List.countP_mono_left ?_) hle
      intro a ha hfa
      simp only [Function.comp] at hfa
      by_cases haid : a.id = dbAssoc.id
      · have haeq : a = dbAssoc :=
          List.inj_on_of_nodup_map hnodup ha hmem (by rw [haid])
        subst haeq
        simp only [Bool.and_eq_true, beq_iff_eq] at hp ⊢
        exact ⟨by rw [← hcompany]; exact hp.1, hdp⟩
      · simpa [if_neg haid] using hfa
    · have hprim : newPm.is_primary = true := by
        simp only [Bool.and_eq_true] at hp
        exact hp.2
      have hkey := hpromo hprim (by simpa using hdp)
      have hcid : dbAssoc.property_company_id = cid := by
        simp only [Bool.and_eq_true, beq_iff_eq] at hp
        rw [← hcompany]
        exact hp.1
      calc l.countP (fun a =>
              (if a.id = dbAssoc.id then newPm else a).property_company_id == cid &&
              (if a.id = dbAssoc.id then newPm else a).is_primary)
          ≤ l.countP (fun a => a.id == dbAssoc.id) := by
            apply List.countP_mono_left
            intro a ha hfa
            by_cases haid : a.id = dbAssoc.id
            · simpa using haid
            · rw [if_neg haid] at hfa
              simp only [Bool.and_eq_true, beq_iff_eq] at hfa
              exact absurd (hkey a ha (hcid ▸ hfa.1) hfa.2) haid
        _ ≤ 1 := by
            have hcount := List.nodup_iff_count_le_one.mp hnodup dbAssoc.id
            rw [List.count_eq_countP, List.countP_map] at hcount
            exact hcount
  · refine le_trans (List.countP_mono_left ?_) hle
    intro a ha hfa
    simp only [Function.comp] at hfa
    by_cases haid : a.id = dbAssoc.id
    · rw [if_pos haid] at hfa
      exact absurd hfa hp
    · simpa [if_neg haid] using hfa


/-- C6: the at-most-one-primary invariant and the membership-operation
rejections.  (1) `CRUDPropertyManager.create` never commits a row — in
particular a duplicate user+company membership and a second primary both
fail with an error and leave the store unchanged (with the actual
`PropertyManagerCreate` schema every call surviving the community check
dies on the missing `property_company_id` field before the dedicated
duplicate/second-primary checks); (2) a non-primary created without its
mandatory `community_id` fails with the dedicated validation error; (3)
demoting the sole primary fails (endpoint check,
`property_managers.py:153-158`); (4) removing the sole primary fails
(`property_managers.py:199-204`); (5) promoting a member while another
primary exists fails (`crud_property_manager.py:66-74`); (6) a committed
`CRUDPropertyManager.update` — the only path by which the update
endpoint commits — preserves at-most-one-primary for every company; (7)
so does a committed removal. -/
theorem membership_primary_invariant_ops (db : DB) :
    (∀ obj : PropertyManagerCreate, ∃ e, property_manager_crud_create db obj = .err db e) ∧
    (∀ obj : PropertyManagerCreate, obj.is_primary = false → obj.community_id = none →
      property_manager_crud_create db obj =
        .err db (.badRequest "非主要管理员必须关联一个小区 (community_id is required for non-primary managers).")) ∧
    (∀ (u : User) (assocId : Nat) (upd : PropertyManagerUpdate) (dbAssoc : PropertyManager),
      u.is_superuser = true →
      db.propertyManagers.find? (fun pm => pm.id == assocId) = some dbAssoc →
      dbAssoc.is_primary = true → upd.is_primary = some false →
      primary_manager_for_company db dbAssoc.property_company_id (some dbAssoc.id) = none →
      update_property_manager_association db u assocId upd =
        .err db (.badRequest "Cannot remove the only primary manager. Assign another primary manager first.")) ∧
    (∀ (u : User) (assocId : Nat) (dbAssoc : PropertyManager),
      u.is_superuser = true →
      db.propertyManagers.find? (fun pm => pm.id == assocId) = some dbAssoc →
      dbAssoc.is_primary = true →
      primary_manager_for_company db dbAssoc.property_company_id (some dbAssoc.id) = none →
      remove_manager_from_property_company db u assocId =
        .err db (.badRequest "Cannot remove the only primary manager. Assign another primary manager first or delete the company.")) ∧
    (∀ (u : User) (assocId : Nat) (upd : PropertyManagerUpdate) (dbAssoc : PropertyManager),
      u.is_superuser = true →
      db.propertyManagers.find? (fun pm => pm.id == assocId) = some dbAssoc →
      dbAssoc.is_primary = false → upd.is_primary = some true →
      (primary_manager_for_company db dbAssoc.property_company_id (some dbAssoc.id)).isSome = true →
      update_property_manager_association db u assocId upd =
        .err db (.badRequest "Property company already has another primary manager. Cannot set this manager as primary.")) ∧
    (∀ (dbAssoc : PropertyManager) (upd : PropertyManagerUpdate) (db2 : DB),
      dbAssoc ∈ db.propertyManagers →
      property_manager_crud_update db dbAssoc upd = .ok db2 () →
      (db.propertyManagers.map PropertyManager.id).Nodup →
      ∀ cid, primary_count db cid ≤ 1 → primary_count db2 cid ≤ 1) ∧
    (∀ (u : User) (assocId : Nat) (db2 : DB),
      remove_manager_from_property_company db u assocId = .ok db2 () →
      ∀ cid, primary_count db cid ≤ 1 → primary_count db2 cid ≤ 1) := by
  refine ⟨?_, ?_, ?_, ?_, ?_, ?_, ?_⟩
  · intro obj
    unfold property_manager_crud_create
    split
    · exact ⟨_, rfl⟩
    · exact ⟨_, rfl⟩
  · intro obj h1 h2
    unfold property_manager_crud_create
    rw [if_pos ⟨h1, h2⟩]
  · intro u assocId upd dbAssoc hsu hfind hprim hdemote hnone
    unfold update_property_manager_association
    rw [hfind]
    simp [hsu, hprim, hdemote, hnone]
  · intro u assocId dbAssoc hsu hfind hprim hnone
    unfold remove_manager_from_property_company
    rw [hfind]
    simp [hsu, hprim, hnone]
  · intro u assocId upd dbAssoc hsu hfind hprim hpromote hsome
    unfold update_property_manager_association
    rw [hfind]
    simp only [hsu]
    rw [if_neg (by simp)]
    rw [if_neg (by simp)]
    rw [if_neg ?hdem]
    case hdem =>
      intro hc
      rw [hprim] at hc
      exact absurd hc.1 (by simp)
    unfold property_manager_crud_update
    rw [if_neg ?hc1]
    case hc1 =>
      intro hc
      rw [hpromote] at hc
      simp at hc
    rw [if_pos ⟨by simp [hpromote], hprim, hsome⟩]
  · intro dbAssoc upd db2 hmem hcrud hnodup cid hle
    unfold property_manager_crud_update at hcrud
    simp only [] at hcrud
    split at hcrud
    · exact absurd hcrud (by simp)
    · rename_i hpromoneg
      split at hcrud
      · exact absurd hcrud (by simp)
      · rename_i hpromoneg2
        simp only [Res.ok.injEq, and_true] at hcrud
        subst hcrud
        unfold primary_count
        apply primary_count_update_le db.propertyManagers dbAssoc
          { id := dbAssoc.id, property_company_id := dbAssoc.property_company_id,
            manager_id := dbAssoc.manager_id, role := upd.role.getD dbAssoc.role,
            is_primary := upd.is_primary.getD dbAssoc.is_primary,
            community_id := if upd.is_primary.getD dbAssoc.is_primary = true then none
              else upd.community_id <|> dbAssoc.community_id }
          cid hnodup hmem rfl rfl
        · intro hnewprim hdbprim pm hpm hcompany hpmprim
          have hnotsome : ¬(primary_manager_for_company db
              dbAssoc.property_company_id (some dbAssoc.id)).isSome = true := by
            intro hs
            exact hpromoneg2 ⟨hnewprim, hdbprim, hs⟩
          have hfnone : primary_manager_for_company db
              dbAssoc.property_company_id (some dbAssoc.id) = none := by
            cases hpm2 : primary_manager_for_company db
                dbAssoc.property_company_id (some dbAssoc.id) with
            | none => rfl
            | some x => exact absurd (by simp [hpm2]) hnotsome
          unfold primary_manager_for_company at hfnone
          have hall := List.find?_eq_none.mp hfnone pm hpm
          by_cases hid0 : dbAssoc.id = 0
          · exfalso
            apply hall
            simp [hcompany, hpmprim, truthyId, hid0]
          · by_contra hne
            apply hall
            have htru : (truthyId (some dbAssoc.id)) = some dbAssoc.id := by
              cases hda : dbAssoc.id with
              | zero => exact absurd hda hid0
              | succ n => simp [truthyId]
            simp [hcompany, hpmprim, htru, hne]
        · exact hle
  · intro u assocId db2 hok cid hle
    unfold remove_manager_from_property_company at hok
    cases hfind : db.propertyManagers.find? (fun pm => pm.id == assocId) with
    | none =>
      rw [hfind] at hok
      exact absurd hok (by simp)
    | some dbAssoc =>
      rw [hfind] at hok
      simp only [] at hok
      split at hok
      · exact absurd hok (by simp)
      · split at hok
        · exact absurd hok (by simp)
        · split at hok
          · exact absurd hok (by simp)
          · simp only [Res.ok.injEq, and_true] at hok
            subst hok
            unfold primary_count at hle ⊢
            exact le_trans ((List.filter_sublist db.propertyManagers).countP_le _) hle

/-- C6 witness: the membership theorem applied to the scenario database —
a creation attempt errors with the store unchanged, a community-less
non-primary creation gets the dedicated validation error, demoting or
removing the sole primary of company 100 (row 1) errors, promoting row 2
while row 3 is already primary of company 200 errors, and a committed
community change on row 2 (and a committed removal of row 2) keeps every
company at ≤ 1 primary. -/
theorem membership_primary_invariant_witness :
    (∃ e, property_manager_crud_create ex_db ⟨"普通管理员", true, none, 50⟩ = .err ex_db e) ∧
    property_manager_crud_create ex_db ⟨"普通管理员", false, none, 77⟩ =
      .err ex_db (.badRequest "非主要管理员必须关联一个小区 (community_id is required for non-primary managers).") ∧
    update_property_manager_association ex_db su_user 1 ⟨none, some false, some 10⟩ =
      .err ex_db (.badRequest "Cannot remove the only primary manager. Assign another primary manager first.") ∧
    remove_manager_from_property_company ex_db su_user 1 =
      .err ex_db (.badRequest "Cannot remove the only primary manager. Assign another primary manager first or delete the company.") ∧
    update_property_manager_association ex_db su_user 2 ⟨none, some true, none⟩ =
      .err ex_db (.badRequest "Property company already has another primary manager. Cannot set this manager as primary.") ∧
    (property_manager_crud_update ex_db ⟨2, 200, 50, "普通管理员", false, some 20⟩
        ⟨none, none, some 21⟩ =
      .ok (property_manager_crud_update ex_db ⟨2, 200, 50, "普通管理员", false, some 20⟩
        ⟨none, none, some 21⟩).db () ∧
      primary_count (property_manager_crud_update ex_db ⟨2, 200, 50, "普通管理员", false, some 20⟩
        ⟨none, none, some 21⟩).db 200 ≤ 1) ∧
    (remove_manager_from_property_company ex_db su_user 2 =
      .ok (remove_manager_from_property_company ex_db su_user 2).db () ∧
      primary_count (remove_manager_from_property_company ex_db su_user 2).db 200 ≤ 1) := by
  obtain ⟨h1, h2, h3, h4, h5, h6, h7⟩ := membership_primary_invariant_ops ex_db
  refine ⟨h1 _, h2 _ rfl rfl,
    h3 su_user 1 _ ⟨1, 100, 50, "主管理员", true, none⟩ rfl (by decide) rfl rfl (by decide),
    h4 su_user 1 ⟨1, 100, 50, "主管理员", true, none⟩ rfl (by decide) rfl (by decide),
    h5 su_user 2 _ ⟨2, 200, 50, "普通管理员", false, some 20⟩ rfl (by decide) rfl rfl (by decide),
    ⟨rfl, ?_⟩, ⟨rfl, ?_⟩⟩
  · exact h6 ⟨2, 200, 50, "普通管理员", false, some 20⟩ ⟨none, none, some 21⟩ _
      (by decide) rfl (by decide) 200 (by decide)
  · exact h7 su_user 2 _ rfl 200 (by decide)

/-- Helper: characterisation of Python truthiness on an optional id. -/
theorem truthyId_eq_some (x : Option Nat) (c : Nat) :
    truthyId x = some c ↔ x = some c ∧ c ≠ 0 := by
  cases x with
  | none => simp [truthyId]
  | some n =>
    cases n with
    | zero =>
      simp only [truthyId]
      constructor
      · intro h; cases h
      · rintro ⟨h, hc⟩
        exact absurd h.symm (by simpa using hc)
    | succ m =>
      simp only [truthyId]
      constructor
      · intro h
        cases h
        exact ⟨rfl, by simp⟩
      · rintro ⟨h, _⟩
        exact h

/-- Helper: membership in the accessible-community set computed by the
source loop. -/
theorem mem_accessible_communities (db : DB) (uid c : Nat) :
    c ∈ accessible_communities db uid ↔
      ∃ pm ∈ pm_rows db uid,
        (pm.is_primary = true ∧ pm.property_company_id ≠ 0 ∧
          c ∈ communities_of_company db pm.property_company_id) ∨
        (pm.is_primary = false ∧ truthyId pm.community_id = some c) := by
  unfold accessible_communities
  rw [List.mem_flatMap]
  constructor
  · rintro ⟨pm, hpm, hc⟩
    refine ⟨pm, hpm, ?_⟩
    by_cases hp : pm.is_primary = true
    · rw [if_pos hp] at hc
      by_cases hpc : pm.property_company_id ≠ 0
      · rw [if_pos hpc] at hc
        exact Or.inl ⟨hp, hpc, hc⟩
      · rw [if_neg hpc] at hc
        simp at hc
    · rw [if_neg hp] at hc
      cases ht : truthyId pm.community_id with
      | none =>
        rw [ht] at hc
        simp at hc
      | some x =>
        rw [ht] at hc
        simp only [List.mem_cons, List.not_mem_nil, or_false] at hc
        exact Or.inr ⟨by simpa using hp, by rw [hc]⟩
  · rintro ⟨pm, hpm, h | h⟩
    · refine ⟨pm, hpm, ?_⟩
      rw [if_pos h.1, if_pos h.2.1]
      exact h.2.2
    · refine ⟨pm, hpm, ?_⟩
      rw [if_neg (by simp [h.1]), h.2]
      simp

/-- Helper: membership in the specified accessible-community set. -/
theorem mem_spec_accessible_communities (db : DB) (uid c : Nat) :
    c ∈ spec_accessible_communities db uid ↔
      ∃ pm ∈ pm_rows db uid,
        (pm.is_primary = true ∧ c ∈ communities_of_company db pm.property_company_id) ∨
        (pm.is_primary = false ∧ pm.community_id = some c) := by
  unfold spec_accessible_communities
  rw [List.mem_flatMap]
  constructor
  · rintro ⟨pm, hpm, hc⟩
    refine ⟨pm, hpm, ?_⟩
    by_cases hp : pm.is_primary = true
    · rw [if_pos hp] at hc
      exact Or.inl ⟨hp, hc⟩
    · rw [if_neg hp] at hc
      refine Or.inr ⟨by simpa using hp, ?_⟩
      cases hcomm : pm.community_id with
      | none =>
        rw [hcomm] at hc
        simp [Option.toList] at hc
      | some x =>
        rw [hcomm] at hc
        simp [Option.toList] at hc
        rw [hc]
  · rintro ⟨pm, hpm, h | h⟩
    · refine ⟨pm, hpm, ?_⟩
      rw [if_pos h.1]
      exact h.2
    · refine ⟨pm, hpm, ?_⟩
      rw [if_neg (by simp [h.1]), h.2]
      simp [Option.toList]

/-- Helper: membership rows of a user are exactly those of the whole
table with that `manager_id`. -/
theorem mem_pm_rows (db : DB) (uid : Nat) (pm : PropertyManager) :
    pm ∈ pm_rows db uid ↔ pm ∈ db.propertyManagers ∧ pm.manager_id = uid := by
  unfold pm_rows
  rw [List.mem_filter]
  simp

/-- C1: for a property-role actor, (i) the accessible-community set
computed by the source loop equals, as a set, the union specified by the
spec — all communities of each company where the actor is primary plus
the single community of each non-primary membership row (the
well-formedness hypothesis states what the schema already enforces:
company ids are set and non-primary rows carry a non-null community);
(ii) an order is listed by `get_by_property_manager` iff its address's
community is in that set; (iii) a single order is readable via
`GET /orders/{id}` iff its address's community is in that set. -/
theorem property_scope_and_visibility
    (db : DB) (uid : Nat)
    (hwf : ∀ pm ∈ db.propertyManagers, pm.manager_id = uid →
      pm.property_company_id ≠ 0 ∧
        (pm.is_primary = false → ∃ c, pm.community_id = some c ∧ c ≠ 0)) :
    (∀ c, c ∈ accessible_communities db uid ↔ c ∈ spec_accessible_communities db uid) ∧
    (∀ limit, db.orders.length ≤ limit → ∀ o ∈ db.orders, ∀ a,
      find_address db o.address_id = some a →
      (o ∈ get_by_property_manager db uid 0 limit none ↔
        a.community_id ∈ accessible_communities db uid)) ∧
    (∀ o a, find_address db o.address_id = some a → a.community_id ≠ 0 →
      (read_order_check db ⟨uid, .property, false⟩ o = .ok () ↔
        a.community_id ∈ accessible_communities db uid)) := by
  have hwfr : ∀ pm ∈ pm_rows db uid, pm.property_company_id ≠ 0 ∧
      (pm.is_primary = false → ∃ c, pm.community_id = some c ∧ c ≠ 0) := by
    intro pm hpm
    obtain ⟨h1, h2⟩ := (mem_pm_rows db uid pm).mp hpm
    exact hwf pm h1 h2
  refine ⟨?_, ?_, ?_⟩
  · intro c
    rw [mem_accessible_communities, mem_spec_accessible_communities]
    constructor
    · rintro ⟨pm, hpm, h | h⟩
      · exact ⟨pm, hpm, Or.inl ⟨h.1, h.2.2⟩⟩
      · exact ⟨pm, hpm, Or.inr ⟨h.1, ((truthyId_eq_some _ _).mp h.2).1⟩⟩
    · rintro ⟨pm, hpm, h | h⟩
      · exact ⟨pm, hpm, Or.inl ⟨h.1, (hwfr pm hpm).1, h.2⟩⟩
      · obtain ⟨c0, hc0, hc0ne⟩ := (hwfr pm hpm).2 h.1
        have hcc : c = c0 := by
          rw [h.2] at hc0
          injection hc0
        refine ⟨pm, hpm, Or.inr ⟨h.1, (truthyId_eq_some _ _).mpr ⟨h.2, ?_⟩⟩⟩
        rw [hcc]
        exact hc0ne
  · intro limit hlim o ho a hfa
    unfold get_by_property_manager
    by_cases hpm : (pm_rows db uid).isEmpty = true
    · rw [if_pos hpm]
      have hrows : pm_rows db uid = [] := List.isEmpty_iff.mp hpm
      constructor
      · intro h
        exact absurd h (List.not_mem_nil o)
      · intro h
        rw [mem_accessible_communities] at h
        obtain ⟨pm, hpm2, _⟩ := h
        rw [hrows] at hpm2
        exact absurd hpm2 (List.not_mem_nil pm)
    · rw [if_neg hpm]
      simp only []
      by_cases hacc : (accessible_communities db uid).isEmpty = true
      · rw [if_pos hacc]
        have hacc0 : accessible_communities db uid = [] := List.isEmpty_iff.mp hacc
        constructor
        · intro h
          exact absurd h (List.not_mem_nil o)
        · intro h
          rw [hacc0] at h
          exact absurd h (List.not_mem_nil _)
      · rw [if_neg hacc]
        have hfilterlen : (db.orders.filter (fun o =>
            match find_address db o.address_id with
            | some a => (accessible_communities db uid).contains a.community_id
            | none => false)).length ≤ limit :=
          le_trans (List.length_filter_le _ _) hlim
        unfold paginate
        rw [List.drop_zero]
        rw [show (order_status_filter none (db.orders.filter (fun o =>
            match find_address db o.address_id with
            | some a => (accessible_communities db uid).contains a.community_id
            | none => false))) = db.orders.filter (fun o =>
            match find_address db o.address_id with
            | some a => (accessible_communities db uid).contains a.community_id
            | none => false) from rfl]
        rw [List.take_of_length_le hfilterlen, List.mem_filter]
        simp [ho, hfa]
  · intro o a hfa hcid
    by_cases hpm : (pm_rows db uid).isEmpty = true
    · constructor
      · intro h
        simp [read_order_check, hfa, hcid, hpm] at h
      · intro h
        rw [mem_accessible_communities] at h
        obtain ⟨pm, hpm2, _⟩ := h
        rw [List.isEmpty_iff.mp hpm] at hpm2
        exact absurd hpm2 (List.not_mem_nil pm)
    · by_cases hmem : a.community_id ∈ accessible_communities db uid
      · simp [read_order_check, hfa, hcid, hpm, hmem]
      · constructor
        · intro h
          simp [read_order_check, hfa, hcid, hpm, hmem] at h
        · intro h
          exact absurd h hmem

/-- C1 witness: the scope theorem applied to user 50 on the scenario
database, where the spec well-formedness hypothesis holds by
computation. -/
theorem property_scope_witness :
    (∀ c, c ∈ accessible_communities ex_db 50 ↔ c ∈ spec_accessible_communities ex_db 50) ∧
    (∀ limit, ex_db.orders.length ≤ limit → ∀ o ∈ ex_db.orders, ∀ a,
      find_address ex_db o.address_id = some a →
      (o ∈ get_by_property_manager ex_db 50 0 limit none ↔
        a.community_id ∈ accessible_communities ex_db 50)) ∧
    (∀ o a, find_address ex_db o.address_id = some a → a.community_id ≠ 0 →
      (read_order_check ex_db ⟨50, .property, false⟩ o = .ok () ↔
        a.community_id ∈ accessible_communities ex_db 50)) :=
  property_scope_and_visibility ex_db 50 (by decide)
